/-
Verification of the quiz-scoring and recommendation core of CourseCompanion.

The definitions below are a shallow embedding of
  backend/services/quiz_service.py   (class QuizService)
  backend/services/recommendation.py (class RecommendationEngine)
  backend/routers/quiz.py            (endpoint submit_quiz)
Python dicts are embedded as insertion-ordered association lists, Python
floats as rationals, and Python exceptions as an explicit error value.
-/
import Mathlib

namespace CourseCompanion

/-- A quiz question, as stored in `QuizService._load_quizzes`.
`correct` is the index of the correct option; user answers are compared to it
with exact integer equality, so it is embedded as `Int` (the unanswered
sentinel is `-1`). -/
structure Question where
  id : String
  question : String
  options : List String
  correct : Int
  topic : String
  difficulty : String
deriving DecidableEq, Repr

/-- The static question-bank table built by `QuizService._load_quizzes`:
a mapping from course id to its ordered question list. -/
def quizzes : List (String × List Question) :=
  [ ("xm-cloud-101",
     [ { id := "xm-q1"
         question := "What is the primary purpose of XM Cloud?"
         options := ["Database management",
                     "Headless content management and delivery",
                     "Email marketing",
                     "Customer relationship management"]
         correct := 1, topic := "fundamentals", difficulty := "easy" },
       { id := "xm-q2"
         question := "Which framework is commonly used with XM Cloud for frontend development?"
         options := ["Angular only", "Vue.js only", "Next.js with JSS", "PHP"]
         correct := 2, topic := "development", difficulty := "medium" },
       { id := "xm-q3"
         question := "What does \x27headless\x27 mean in the context of XM Cloud?"
         options := ["No user interface at all",
                     "Content is separated from presentation",
                     "Only works without a database",
                     "Requires no authentication"]
         correct := 1, topic := "architecture", difficulty := "easy" },
       { id := "xm-q4"
         question := "How are components typically created in XM Cloud?"
         options := ["Only through the UI",
                     "Using SQL scripts",
                     "As React/Next.js components with Sitecore integration",
                     "Through XML configuration only"]
         correct := 2, topic := "development", difficulty := "medium" },
       { id := "xm-q5"
         question := "What is the deployment model for XM Cloud?"
         options := ["On-premise only",
                     "SaaS (Software as a Service)",
                     "Self-hosted required",
                     "Desktop application"]
         correct := 1, topic := "deployment", difficulty := "easy" } ]),
    ("search-fundamentals",
     [ { id := "search-q1"
         question := "What is the primary function of an index in Sitecore Search?"
         options := ["Store user passwords",
                     "Enable fast content retrieval",
                     "Manage user sessions",
                     "Handle authentication"]
         correct := 1, topic := "indexing", difficulty := "easy" },
       { id := "search-q2"
         question := "What are facets in search?"
         options := ["Error messages",
                     "Categories for filtering search results",
                     "Database tables",
                     "User permissions"]
         correct := 1, topic := "facets", difficulty := "easy" },
       { id := "search-q3"
         question := "What is boosting in search queries?"
         options := ["Making searches slower",
                     "Increasing relevance of certain results",
                     "Removing results",
                     "Encrypting queries"]
         correct := 1, topic := "optimization", difficulty := "medium" },
       { id := "search-q4"
         question := "When should you rebuild a search index?"
         options := ["Never",
                     "After significant content changes or schema updates",
                     "Every minute",
                     "Only on weekends"]
         correct := 1, topic := "indexing", difficulty := "medium" } ]),
    ("content-hub-101",
     [ { id := "ch-q1"
         question := "What is the primary use case for Content Hub DAM?"
         options := ["Code deployment",
                     "Digital asset management",
                     "User authentication",
                     "Email sending"]
         correct := 1, topic := "dam", difficulty := "easy" },
       { id := "ch-q2"
         question := "What does CMP stand for in Content Hub?"
         options := ["Code Management Platform",
                     "Content Marketing Platform",
                     "Customer Management Portal",
                     "Central Media Player"]
         correct := 1, topic := "cmp", difficulty := "easy" },
       { id := "ch-q3"
         question := "How do workflows help in Content Hub?"
         options := ["They slow down processes",
                     "They automate content review and approval processes",
                     "They delete content automatically",
                     "They prevent any changes"]
         correct := 1, topic := "workflows", difficulty := "medium" },
       { id := "ch-q4"
         question := "What types of assets can Content Hub manage?"
         options := ["Only images",
                     "Only videos",
                     "Multiple asset types including images, videos, documents",
                     "Only PDFs"]
         correct := 2, topic := "dam", difficulty := "easy" },
       { id := "ch-q5"
         question := "What is the benefit of Content Hub\x27s integration capabilities?"
         options := ["It cannot integrate with other systems",
                     "It enables connection with other marketing and content tools",
                     "It only works standalone",
                     "Integration removes all features"]
         correct := 1, topic := "integration", difficulty := "medium" } ]) ]

/-- Embedding of `QuizService.get_questions`: `self.quizzes.get(course_id, [])`. -/
def get_questions (course_id : String) : List Question :=
  (quizzes.lookup course_id).getD []

/-- A submitted answer map (`answers: Dict[str, int]`), embedded as an
association list from question id to selected option index. -/
abbrev AnswerMap := List (String × Int)

/-- Embedding of `answers.get(q_id, -1)`: look up the submitted index, defaulting to the
`-1` sentinel when the question was not answered. -/
def getAnswer (answers : AnswerMap) (q_id : String) : Int :=
  (List.lookup q_id answers).getD (-1)

/-- Running per-topic tally, the `{"correct": 0, "total": 0}` dict created
inside the scoring loop. -/
structure TopicTally where
  correct : Nat
  total : Nat
deriving DecidableEq, Repr

/-- One step of the topic bookkeeping in the scoring loop:
if the topic is not yet present, insert it at the end (dict insertion order);
then increment its `total`, and its `correct` when the answer was correct. -/
def bumpTopic (topic_scores : List (String × TopicTally)) (topic : String)
    (is_correct : Bool) : List (String × TopicTally) :=
  match topic_scores with
  | [] => [(topic, { correct := if is_correct then 1 else 0, total := 1 })]
  | (t, tally) :: rest =>
    if t = topic then
      (t, { correct := tally.correct + (if is_correct then 1 else 0),
            total := tally.total + 1 }) :: rest
    else
      (t, tally) :: bumpTopic rest topic is_correct

/-- One entry of `question_results`. -/
structure QuestionResult where
  question_id : String
  question : String
  user_answer : Int
  correct_answer : Int
  is_correct : Bool
  topic : String
deriving DecidableEq, Repr

/-- The `for question in questions` loop of `QuizService.score_quiz`,
threading the three accumulators `score`, `topic_scores`, `question_results`. -/
def scoreLoop (answers : AnswerMap) (score : Nat)
    (topic_scores : List (String × TopicTally)) (results : List QuestionResult) :
    List Question → Nat × List (String × TopicTally) × List QuestionResult
  | [] => (score, topic_scores, results)
  | question :: rest =>
    let user_answer := getAnswer answers question.id
    let is_correct : Bool := user_answer == question.correct
    scoreLoop answers
      (if is_correct then score + 1 else score)
      (bumpTopic topic_scores question.topic is_correct)
      (results ++ [{ question_id := question.id
                     question := question.question
                     user_answer := user_answer
                     correct_answer := question.correct
                     is_correct := is_correct
                     topic := question.topic }])
      rest

/-- A per-topic score in the returned result: the tally plus the percentage
added by the `for topic, scores in topic_scores.items()` pass. -/
structure TopicScore where
  correct : Nat
  total : Nat
  percentage : ℚ
deriving DecidableEq, Repr

/-- The normal return value of `QuizService.score_quiz`. -/
structure QuizResult where
  score : Nat
  total : Nat
  percentage : ℚ
  passed : Bool
  topic_scores : List (String × TopicScore)
  question_results : List QuestionResult
deriving DecidableEq, Repr

/-- The two shapes `QuizService.score_quiz` can return: the normal result, or
the distinguished payload carrying `"error": "Quiz not found"` (with score 0,
total 0, percentage 0 and empty topic_scores) returned when the course has no
questions. -/
inductive ScoreResult where
  | quizNotFound
  | result (r : QuizResult)
deriving DecidableEq, Repr

/-- Embedding of `QuizService.score_quiz(course_id, answers)`. -/
def score_quiz (course_id : String) (answers : AnswerMap) : ScoreResult :=
  let questions := get_questions course_id
  if questions.isEmpty then
    ScoreResult.quizNotFound
  else
    let looped := scoreLoop answers 0 [] [] questions
    let score := looped.1
    let tallies := looped.2.1
    let question_results := looped.2.2
    let total := questions.length
    let percentage : ℚ := if total > 0 then (score : ℚ) / total * 100 else 0
    ScoreResult.result
      { score := score
        total := total
        percentage := percentage
        passed := decide (percentage ≥ 70)
        topic_scores := tallies.map fun e =>
          (e.1, { correct := e.2.correct
                  total := e.2.total
                  percentage :=
                    if e.2.total > 0 then (e.2.correct : ℚ) / e.2.total * 100 else 0 })
        question_results := question_results }

/-- Python `str.title()` restricted to its behavior on text: an alphabetic
character is uppercased when the previous character is not alphabetic and
lowercased otherwise; other characters are kept. -/
def pyTitleGo : List Char → Bool → List Char
  | [], _ => []
  | c :: rest, prevAlpha =>
    (if c.isAlpha then (if prevAlpha then c.toLower else c.toUpper) else c)
      :: pyTitleGo rest c.isAlpha

/-- Python `str.title()`. -/
def pyTitle (s : String) : String :=
  ⟨pyTitleGo s.data false⟩

/-- Python `str.lower()`. -/
def pyLower (s : String) : String :=
  ⟨s.data.map Char.toLower⟩

/-- Python `topic.replace("_", " ")` as called by `_default_resource`: the
pattern is the single character underscore, so the call replaces every
underscore with a space. -/
def replaceUnderscores (s : String) : String :=
  ⟨s.data.map fun c => if c = '_' then ' ' else c⟩

/-- A per-topic resource entry of `RecommendationEngine._load_course_resources`
(and of `_default_resource`); every entry carries all four keys, so the
`resource.get(..., default)` fallbacks in `generate_recommendations` never
fire. -/
structure Resource where
  module : String
  artifact : String
  tip : String
  resources : List String
deriving DecidableEq, Repr

/-- The static table of `RecommendationEngine._load_course_resources`.
Each course value in the source is a dict with a single `"topics"` key; the
embedding maps each course id directly to that inner topics table. -/
def course_resources : List (String × List (String × Resource)) :=
  [ ("xm-cloud-101",
     [ ("fundamentals",
        { module := "Module 1: Introduction to XM Cloud"
          artifact := "mindmap"
          tip := "Review the core concepts and architecture overview"
          resources := ["Watch the introduction video",
                        "Review the architecture diagram",
                        "Complete the hands-on exercise"] }),
       ("development",
        { module := "Module 4: Component Development"
          artifact := "cheatsheet"
          tip := "Practice creating components with the JSS SDK"
          resources := ["Follow the component tutorial",
                        "Review the JSS documentation",
                        "Build a sample component"] }),
       ("architecture",
        { module := "Module 2: Architecture Overview"
          artifact := "mindmap"
          tip := "Study the headless architecture diagram"
          resources := ["Review the system diagram",
                        "Understand the data flow",
                        "Learn about Experience Edge"] }),
       ("deployment",
        { module := "Module 5: Deployment & Publishing"
          artifact := "summary"
          tip := "Follow the deployment checklist step by step"
          resources := ["Set up your GitHub repository",
                        "Configure environment variables",
                        "Practice with the Deploy app"] }) ]),
    ("search-fundamentals",
     [ ("indexing",
        { module := "Module 1 & 2: Search Architecture & Indexing"
          artifact := "mindmap"
          tip := "Understand when and how to rebuild indexes"
          resources := ["Learn about index structures",
                        "Practice index configuration",
                        "Understand incremental vs full rebuild"] }),
       ("facets",
        { module := "Module 4: Faceted Search"
          artifact := "slides"
          tip := "Practice creating facet configurations"
          resources := ["Review facet types",
                        "Configure custom facets",
                        "Implement facet UI"] }),
       ("optimization",
        { module := "Module 3: Query Optimization"
          artifact := "summary"
          tip := "Learn about boosting and relevance tuning"
          resources := ["Study relevance scoring",
                        "Implement boosting rules",
                        "Test query performance"] }) ]),
    ("content-hub-101",
     [ ("dam",
        { module := "Module 2: Asset Management"
          artifact := "mindmap"
          tip := "Explore different asset types and metadata"
          resources := ["Upload and organize assets",
                        "Configure metadata schemas",
                        "Learn about renditions"] }),
       ("cmp",
        { module := "Module 3: Content Operations"
          artifact := "slides"
          tip := "Understand the content lifecycle"
          resources := ["Create content items",
                        "Set up taxonomies",
                        "Learn about content types"] }),
       ("workflows",
        { module := "Module 5: Workflows & Approvals"
          artifact := "workflow"
          tip := "Practice creating approval workflows"
          resources := ["Design workflow stages",
                        "Configure notifications",
                        "Test approval processes"] }),
       ("integration",
        { module := "Module 4: Integration Patterns"
          artifact := "slides"
          tip := "Review API documentation and examples"
          resources := ["Study the REST API",
                        "Implement webhooks",
                        "Build a sample integration"] }) ]) ]

/-- Embedding of `RecommendationEngine._default_resource(topic)`: synthesize a resource
from the topic name (underscores replaced with spaces, title-cased). -/
def default_resource (topic : String) : Resource :=
  let topic_title := pyTitle (replaceUnderscores topic)
  { module := "Review " ++ topic_title ++ " section"
    artifact := "summary"
    tip := "Focus on " ++ pyLower topic_title ++ " concepts"
    resources := ["Review " ++ pyLower topic_title ++ " materials",
                  "Practice with examples",
                  "Take notes on key concepts"] }

/-- The value found under the `"percentage"` key of one `topic_scores` entry
handed to `generate_recommendations`. The source reads it with
`scores.get("percentage", 0)` followed by an `isinstance(..., (int, float))`
check, so three shapes matter: a numeric value, a missing key (the numeric
default `0` is used and passes the check), and a non-numeric value (the
fallback recomputation from `correct`/`total` runs). -/
inductive PercentField where
  | num (p : ℚ)
  | absent
  | nonNum
deriving DecidableEq, Repr

/-- One `topic_scores` entry handed to `generate_recommendations`: the
`"percentage"` key as a `PercentField`, plus the `correct` and `total`
counts (always present on the call paths in the repository; their
`dict.get` defaults 0 and 1 are therefore not modelled). -/
structure TopicScoreIn where
  percentage : PercentField
  correct : Nat
  total : Nat
deriving DecidableEq, Repr

/-- The percentage value the loop body of `generate_recommendations` ends up
using for one entry. -/
def effectivePercentage (scores : TopicScoreIn) : ℚ :=
  match scores.percentage with
  | PercentField.num p => p
  | PercentField.absent => 0
  | PercentField.nonNum =>
      if scores.total > 0 then (scores.correct : ℚ) / scores.total * 100 else 0

/-- A recommendation dict appended by `generate_recommendations`. -/
structure Recommendation where
  topic : String
  score : ℚ
  priority : String
  module : String
  artifact : String
  tip : String
  resources : List String
deriving DecidableEq, Repr

/-- The body of the `if percentage < threshold` branch: resource lookup with
the `_default_resource` fallback, the three-tier priority rule, and the
recommendation record. -/
def mkRec (topic_resources : List (String × Resource)) (topic : String)
    (percentage : ℚ) : Recommendation :=
  let resource := (topic_resources.lookup topic).getD (default_resource topic)
  { topic := topic
    score := percentage
    priority :=
      if percentage < 40 then "high"
      else if percentage < 60 then "medium"
      else "low"
    module := resource.module
    artifact := resource.artifact
    tip := resource.tip
    resources := resource.resources }

/-- The `for topic, scores in topic_scores.items()` loop of
`generate_recommendations`, before sorting. -/
def recsLoop (topic_resources : List (String × Resource)) (threshold : ℚ) :
    List (String × TopicScoreIn) → List Recommendation
  | [] => []
  | (topic, scores) :: rest =>
    let percentage := effectivePercentage scores
    if percentage < threshold then
      mkRec topic_resources topic percentage :: recsLoop topic_resources threshold rest
    else
      recsLoop topic_resources threshold rest

/-- Embedding of `priority_order.get(x["priority"], 3)` with
`priority_order = {"high": 0, "medium": 1, "low": 2}`. -/
def priority_order (p : String) : Nat :=
  if p = "high" then 0 else if p = "medium" then 1 else if p = "low" then 2 else 3

/-- The sort key `(priority_order.get(x["priority"], 3), x["score"])`. -/
def recKey (r : Recommendation) : Nat × ℚ :=
  (priority_order r.priority, r.score)

/-- Lexicographic comparison of sort keys; `list.sort(key=...)` is a stable
sort with respect to this order. -/
def recLE (a b : Recommendation) : Bool :=
  decide ((recKey a).1 < (recKey b).1) ||
    (decide ((recKey a).1 = (recKey b).1) && decide ((recKey a).2 ≤ (recKey b).2))

/-- The comparison `recLE` as a decidable proposition, the order `list.sort(key=...)` sorts
by. -/
def recLEP (a b : Recommendation) : Prop := recLE a b = true

instance : DecidableRel recLEP :=
  fun a b => inferInstanceAs (Decidable (recLE a b = true))

instance : IsTotal Recommendation recLEP where
  total a b := by
    simp only [recLEP, recLE, Bool.or_eq_true, Bool.and_eq_true, decide_eq_true_eq]
    rcases Nat.lt_trichotomy (recKey a).1 (recKey b).1 with h | h | h
    · exact Or.inl (Or.inl h)
    · rcases le_total (recKey a).2 (recKey b).2 with h2 | h2
      · exact Or.inl (Or.inr ⟨h, h2⟩)
      · exact Or.inr (Or.inr ⟨h.symm, h2⟩)
    · exact Or.inr (Or.inl h)

instance : IsTrans Recommendation recLEP where
  trans a b c hab hbc := by
    simp only [recLEP, recLE, Bool.or_eq_true, Bool.and_eq_true,
      decide_eq_true_eq] at *
    rcases hab with h | ⟨he, h2⟩ <;> rcases hbc with h' | ⟨he', h2'⟩
    · exact Or.inl (h.trans h')
    · exact Or.inl (he' ▸ h)
    · exact Or.inl (he ▸ h')
    · exact Or.inr ⟨he.trans he', h2.trans h2'⟩

/-- The recommendation list of `generate_recommendations` before the final
`recommendations.sort(...)` call, in topic-insertion order of the input. -/
def recsUnsorted (course_id : String) (topic_scores : List (String × TopicScoreIn))
    (threshold : ℚ) : List Recommendation :=
  recsLoop ((course_resources.lookup course_id).getD []) threshold topic_scores

/-- Embedding of `RecommendationEngine.generate_recommendations(course_id, topic_scores,
threshold=70.0)`: collect one recommendation per under-threshold topic, then
stable-sort by the key `(priority rank, score)`. Python's `list.sort` is a
stable sort; stable sorting has a unique result, here computed by the
(stable) insertion sort. -/
def generate_recommendations (course_id : String)
    (topic_scores : List (String × TopicScoreIn)) (threshold : ℚ := 70) :
    List Recommendation :=
  List.insertionSort recLEP (recsUnsorted course_id topic_scores threshold)

/-- The `Recommendation` response model of `routers/quiz.py`: the engine's
recommendation minus its `resources` field. -/
structure RecommendationOut where
  topic : String
  score : ℚ
  priority : String
  module : String
  artifact : String
  tip : String
deriving DecidableEq, Repr

/-- The `TopicScore` response model of `routers/quiz.py`. -/
structure SubmitTopicScore where
  topic : String
  correct : Nat
  total : Nat
  percentage : ℚ
deriving DecidableEq, Repr

/-- The `QuizResultResponse` model of `routers/quiz.py`, minus the fields that
merely echo the request (`user_id`, `course_id`) and the wall-clock
`submitted_at` timestamp. -/
structure SubmitResult where
  score : Nat
  total : Nat
  percentage : ℚ
  passed : Bool
  topic_scores : List SubmitTopicScore
  recommendations : List RecommendationOut
deriving DecidableEq, Repr

/-- The `POST /quiz/submit` endpoint (`submit_quiz` in `routers/quiz.py`).
An empty question bank makes it raise `HTTPException(404, "Quiz not found")`,
embedded as `Except.error`; the error is never caught inside the endpoint.
Its scoring loop is the `QuizService.score_quiz` loop minus the
`question_results` accumulator, so `scoreLoop` is reused and its third
component discarded. Note that the raw `{correct, total}` tallies are passed
to `generate_recommendations` without a `"percentage"` key. -/
def submit_quiz (course_id : String) (answers : AnswerMap) :
    Except String SubmitResult :=
  let questions := get_questions course_id
  if questions.isEmpty then
    Except.error "Quiz not found"
  else
    let looped := scoreLoop answers 0 [] [] questions
    let score := looped.1
    let tallies := looped.2.1
    let total := questions.length
    let percentage : ℚ := if total > 0 then (score : ℚ) / total * 100 else 0
    let passed := decide (percentage ≥ 70)
    let topic_score_list : List SubmitTopicScore := tallies.map fun e =>
      { topic := e.1
        correct := e.2.correct
        total := e.2.total
        percentage :=
          if e.2.total > 0 then (e.2.correct : ℚ) / e.2.total * 100 else 0 }
    let recommendation_list :=
      (generate_recommendations course_id
        (tallies.map fun e =>
          (e.1, { percentage := PercentField.absent
                  correct := e.2.correct
                  total := e.2.total })) 70).map fun rec =>
        ({ topic := rec.topic
           score := rec.score
           priority := rec.priority
           module := rec.module
           artifact := rec.artifact
           tip := rec.tip } : RecommendationOut)
    Except.ok
      { score := score
        total := total
        percentage := percentage
        passed := passed
        topic_scores := topic_score_list
        recommendations := recommendation_list }

/-- Restriction of an answer map to a set of question ids: the submission with
every entry whose key is not one of the given ids removed. -/
def restrictAnswers (answers : AnswerMap) (ids : List String) : AnswerMap :=
  answers.filter fun kv => ids.contains kv.1

/-- A well-formed `TopicScore` (the data model of the spec, and exactly what
`score_quiz` emits) viewed as a `generate_recommendations` input entry: its
`"percentage"` key is present and numeric. -/
def TopicScore.toInput (s : TopicScore) : TopicScoreIn :=
  { percentage := PercentField.num s.percentage
    correct := s.correct
    total := s.total }

/-- A whole well-formed `topic_scores` mapping as a
`generate_recommendations` input. -/
def wellFormedInput (ts : List (String × TopicScore)) :
    List (String × TopicScoreIn) :=
  ts.map fun e => (e.1, e.2.toInput)

/-! ### Helper lemmas about the scoring loop -/

theorem bumpTopic_sum_total (topic : String) (b : Bool) :
    ∀ ts : List (String × TopicTally),
      ((bumpTopic ts topic b).map fun e => e.2.total).sum
        = ((ts.map fun e => e.2.total).sum) + 1 := by
  intro ts
  induction ts with
  | nil => simp [bumpTopic]
  | cons kv rest ih =>
    obtain ⟨t, tally⟩ := kv
    by_cases h : t = topic <;> simp [bumpTopic, h, ih] <;> omega

theorem bumpTopic_sum_correct (topic : String) (b : Bool) :
    ∀ ts : List (String × TopicTally),
      ((bumpTopic ts topic b).map fun e => e.2.correct).sum
        = ((ts.map fun e => e.2.correct).sum) + (if b then 1 else 0) := by
  intro ts
  induction ts with
  | nil => cases b <;> simp [bumpTopic]
  | cons kv rest ih =>
    obtain ⟨t, tally⟩ := kv
    by_cases h : t = topic <;> cases b <;> simp [bumpTopic, h, ih] <;> omega

theorem scoreLoop_score (answers : AnswerMap) (qs : List Question) :
    ∀ (s : Nat) (ts : List (String × TopicTally)) (rs : List QuestionResult),
      (scoreLoop answers s ts rs qs).1
        = s + (qs.filter fun q => getAnswer answers q.id == q.correct).length := by
  induction qs with
  | nil => intro s ts rs; simp [scoreLoop]
  | cons q rest ih =>
    intro s ts rs
    by_cases hc : (getAnswer answers q.id == q.correct) = true <;>
      simp [scoreLoop, hc, ih, List.filter_cons] <;> omega

theorem scoreLoop_sum_total (answers : AnswerMap) (qs : List Question) :
    ∀ (s : Nat) (ts : List (String × TopicTally)) (rs : List QuestionResult),
      (((scoreLoop answers s ts rs qs).2.1).map fun e => e.2.total).sum
        = ((ts.map fun e => e.2.total).sum) + qs.length := by
  induction qs with
  | nil => intro s ts rs; simp [scoreLoop]
  | cons q rest ih =>
    intro s ts rs
    simp [scoreLoop, ih, bumpTopic_sum_total]
    omega

theorem scoreLoop_sum_correct (answers : AnswerMap) (qs : List Question) :
    ∀ (s : Nat) (ts : List (String × TopicTally)) (rs : List QuestionResult),
      (((scoreLoop answers s ts rs qs).2.1).map fun e => e.2.correct).sum
        = ((ts.map fun e => e.2.correct).sum)
            + (qs.filter fun q => getAnswer answers q.id == q.correct).length := by
  induction qs with
  | nil => intro s ts rs; simp [scoreLoop]
  | cons q rest ih =>
    intro s ts rs
    by_cases hc : (getAnswer answers q.id == q.correct) = true <;>
      simp [scoreLoop, hc, ih, bumpTopic_sum_correct, List.filter_cons] <;> omega

/-! ### Claim theorems about the scorer -/

/-- Claim C1: for every course with a non-empty question bank and every answer
map, `score_quiz` returns a normal result whose `total` is the number of
questions and whose `score` counts the questions whose looked-up answer
(defaulting to the `-1` sentinel) equals the correct option index. -/
theorem score_quiz_total_and_score (course_id : String) (answers : AnswerMap)
    (h : get_questions course_id ≠ []) :
    ∃ r, score_quiz course_id answers = ScoreResult.result r
      ∧ r.total = (get_questions course_id).length
      ∧ r.score = ((get_questions course_id).filter
            fun q => getAnswer answers q.id == q.correct).length := by
  have hne : (get_questions course_id).isEmpty = false := by
    simpa [List.isEmpty_iff] using h
  simp only [score_quiz, hne, Bool.false_eq_true, if_false]
  exact ⟨_, rfl, rfl,
    by simpa using scoreLoop_score answers (get_questions course_id) 0 [] []⟩

/-- Claim C1 witness: instantiation on `xm-cloud-101` with a concrete partial
submission. -/
theorem score_quiz_total_and_score_witness :
    get_questions "xm-cloud-101" ≠ []
    ∧ ∃ r, score_quiz "xm-cloud-101" [("xm-q1", 1), ("xm-q3", 0)]
            = ScoreResult.result r
        ∧ r.total = (get_questions "xm-cloud-101").length
        ∧ r.score = ((get_questions "xm-cloud-101").filter
              fun q => getAnswer [("xm-q1", 1), ("xm-q3", 0)] q.id == q.correct).length :=
  ⟨by decide, score_quiz_total_and_score "xm-cloud-101" [("xm-q1", 1), ("xm-q3", 0)]
    (by decide)⟩

/-- Claim C6: for every non-empty question bank and answer map, the result
satisfies `passed = (percentage ≥ 70)`, with the inclusive boundary, so a
percentage of exactly 70 passes; the threshold is the fixed literal 70 for
every course. -/
theorem score_quiz_passed_iff (course_id : String) (answers : AnswerMap)
    (h : get_questions course_id ≠ []) :
    ∃ r, score_quiz course_id answers = ScoreResult.result r
      ∧ (r.passed = true ↔ r.percentage ≥ 70) := by
  have hne : (get_questions course_id).isEmpty = false := by
    simpa [List.isEmpty_iff] using h
  simp only [score_quiz, hne, Bool.false_eq_true, if_false]
  exact ⟨_, rfl, by simp⟩

/-- Claim C6 witness: a full correct submission for `search-fundamentals`
scores 100 ≥ 70 and passes. -/
theorem score_quiz_passed_iff_witness :
    get_questions "search-fundamentals" ≠ []
    ∧ ∃ r, score_quiz "search-fundamentals"
            [("search-q1", 1), ("search-q2", 1), ("search-q3", 1), ("search-q4", 1)]
            = ScoreResult.result r
        ∧ (r.passed = true ↔ r.percentage ≥ 70) :=
  ⟨by decide, score_quiz_passed_iff "search-fundamentals"
    [("search-q1", 1), ("search-q2", 1), ("search-q3", 1), ("search-q4", 1)] (by decide)⟩

/-- Claim C7: the per-topic tallies partition the question bank: the per-topic
`total` fields sum to the question count and the per-topic `correct` fields
sum to the aggregate score. -/
theorem score_quiz_topic_partition (course_id : String) (answers : AnswerMap)
    (h : get_questions course_id ≠ []) :
    ∃ r, score_quiz course_id answers = ScoreResult.result r
      ∧ (r.topic_scores.map fun e => e.2.total).sum = (get_questions course_id).length
      ∧ (r.topic_scores.map fun e => e.2.correct).sum = r.score := by
  have hne : (get_questions course_id).isEmpty = false := by
    simpa [List.isEmpty_iff] using h
  simp only [score_quiz, hne, Bool.false_eq_true, if_false]
  refine ⟨_, rfl, ?_, ?_⟩
  · simpa [List.map_map, Function.comp] using
      scoreLoop_sum_total answers (get_questions course_id) 0 [] []
  · rw [show ((scoreLoop answers 0 [] [] (get_questions course_id)).1
        = ((get_questions course_id).filter
            fun q => getAnswer answers q.id == q.correct).length) from
      by simpa using scoreLoop_score answers (get_questions course_id) 0 [] []]
    simpa [List.map_map, Function.comp] using
      scoreLoop_sum_correct answers (get_questions course_id) 0 [] []

/-- Claim C7 witness: instantiation on `content-hub-101` with a concrete
partial submission. -/
theorem score_quiz_topic_partition_witness :
    get_questions "content-hub-101" ≠ []
    ∧ ∃ r, score_quiz "content-hub-101" [("ch-q1", 1), ("ch-q4", 0)]
            = ScoreResult.result r
        ∧ (r.topic_scores.map fun e => e.2.total).sum
            = (get_questions "content-hub-101").length
        ∧ (r.topic_scores.map fun e => e.2.correct).sum = r.score :=
  ⟨by decide, score_quiz_topic_partition "content-hub-101" [("ch-q1", 1), ("ch-q4", 0)]
    (by decide)⟩

/-- Claim C2: for a course with no question bank, scoring never yields a
normal result: `QuizService.score_quiz` returns its distinguished
`"Quiz not found"` error payload, and the `POST /quiz/submit` endpoint raises
`HTTPException(404, "Quiz not found")` (embedded as `Except.error`), which is
propagated to the caller, never caught. -/
theorem score_unknown_course_not_found (course_id : String) (answers : AnswerMap)
    (h : get_questions course_id = []) :
    score_quiz course_id answers = ScoreResult.quizNotFound
    ∧ submit_quiz course_id answers = Except.error "Quiz not found" := by
  constructor <;> simp [score_quiz, submit_quiz, h]

/-- Claim C2 witness: a course id with no question bank. -/
theorem score_unknown_course_not_found_witness :
    get_questions "no-such-course" = []
    ∧ score_quiz "no-such-course" [("xm-q1", 1)] = ScoreResult.quizNotFound
    ∧ submit_quiz "no-such-course" [("xm-q1", 1)] = Except.error "Quiz not found" :=
  ⟨by decide, score_unknown_course_not_found "no-such-course" [("xm-q1", 1)] (by decide)⟩

/-- Claim C9: `get_questions` is total and returns the empty list for every
course id that is not one of the three registered ones, rather than failing. -/
theorem get_questions_unknown_empty (course_id : String)
    (h1 : course_id ≠ "xm-cloud-101") (h2 : course_id ≠ "search-fundamentals")
    (h3 : course_id ≠ "content-hub-101") :
    get_questions course_id = [] := by
  have e1 : (course_id == "xm-cloud-101") = false := beq_eq_false_iff_ne.mpr h1
  have e2 : (course_id == "search-fundamentals") = false := beq_eq_false_iff_ne.mpr h2
  have e3 : (course_id == "content-hub-101") = false := beq_eq_false_iff_ne.mpr h3
  simp [get_questions, quizzes, List.lookup, e1, e2, e3]

/-- Claim C9 witness: an unknown course id. -/
theorem get_questions_unknown_empty_witness :
    "intro-to-basket-weaving" ≠ "xm-cloud-101"
    ∧ get_questions "intro-to-basket-weaving" = [] :=
  ⟨by decide, get_questions_unknown_empty "intro-to-basket-weaving"
    (by decide) (by decide) (by decide)⟩

theorem restrictAnswers_cons (kv : String × Int) (rest : AnswerMap) (ids : List String) :
    restrictAnswers (kv :: rest) ids
      = if kv.1 ∈ ids then kv :: restrictAnswers rest ids
        else restrictAnswers rest ids := by
  simp [restrictAnswers, List.filter_cons]

theorem lookup_restrict (ids : List String) (k : String) (hk : k ∈ ids) :
    ∀ answers : AnswerMap,
      List.lookup k (restrictAnswers answers ids) = List.lookup k answers := by
  intro answers
  induction answers with
  | nil => rfl
  | cons kv rest ih =>
    rw [restrictAnswers_cons]
    by_cases hc : kv.1 ∈ ids
    · rw [if_pos hc]
      by_cases he : (k == kv.1) = true
      · simp [List.lookup, he]
      · have he' : (k == kv.1) = false := by simpa using he
        simp [List.lookup, he', ih]
    · have he' : (k == kv.1) = false := by
        by_contra hne
        have ht : (k == kv.1) = true := by simpa using hne
        exact hc (eq_of_beq ht ▸ hk)
      rw [if_neg hc]
      simp [List.lookup, he', ih]

theorem getAnswer_restrict (answers : AnswerMap) (ids : List String) (k : String)
    (hk : k ∈ ids) :
    getAnswer (restrictAnswers answers ids) k = getAnswer answers k := by
  simp [getAnswer, lookup_restrict ids k hk answers]

theorem scoreLoop_congr (a1 a2 : AnswerMap) (qs : List Question)
    (h : ∀ q ∈ qs, getAnswer a1 q.id = getAnswer a2 q.id) :
    ∀ (s : Nat) (ts : List (String × TopicTally)) (rs : List QuestionResult),
      scoreLoop a1 s ts rs qs = scoreLoop a2 s ts rs qs := by
  induction qs with
  | nil => intro s ts rs; rfl
  | cons q rest ih =>
    intro s ts rs
    have hq : getAnswer a1 q.id = getAnswer a2 q.id := h q (List.mem_cons_self q rest)
    simp only [scoreLoop, hq]
    exact ih (fun q' hq' => h q' (List.mem_cons_of_mem q hq')) _ _ _

/-- Claim C10: answer-map entries whose keys match no question id of the
course have no effect: scoring a submission equals scoring its restriction to
the course's question ids, in every field of the result. -/
theorem score_quiz_ignores_foreign_answers (course_id : String) (answers : AnswerMap)
    (h : get_questions course_id ≠ []) :
    score_quiz course_id answers
      = score_quiz course_id
          (restrictAnswers answers ((get_questions course_id).map Question.id)) := by
  have hloop : ∀ q ∈ get_questions course_id,
      getAnswer answers q.id
        = getAnswer (restrictAnswers answers ((get_questions course_id).map Question.id))
            q.id := by
    intro q hq
    exact (getAnswer_restrict answers _ q.id (List.mem_map_of_mem Question.id hq)).symm
  simp only [score_quiz, scoreLoop_congr _ _ _ hloop]

/-- Claim C10 witness: a submission for `xm-cloud-101` carrying an entry for a
bogus question id scores identically to its restriction. -/
theorem score_quiz_ignores_foreign_answers_witness :
    get_questions "xm-cloud-101" ≠ []
    ∧ score_quiz "xm-cloud-101" [("xm-q2", 2), ("bogus-q", 3)]
        = score_quiz "xm-cloud-101"
            (restrictAnswers [("xm-q2", 2), ("bogus-q", 3)]
              ((get_questions "xm-cloud-101").map Question.id)) :=
  ⟨by decide, score_quiz_ignores_foreign_answers "xm-cloud-101"
    [("xm-q2", 2), ("bogus-q", 3)] (by decide)⟩

/-! ### Helper lemmas about the recommendation engine -/

theorem recsLoop_eq_filter_map (tr : List (String × Resource)) (θ : ℚ) :
    ∀ ts : List (String × TopicScoreIn),
      recsLoop tr θ ts
        = (ts.filter fun e => decide (effectivePercentage e.2 < θ)).map
            (fun e => mkRec tr e.1 (effectivePercentage e.2)) := by
  intro ts
  induction ts with
  | nil => rfl
  | cons e rest ih =>
    obtain ⟨topic, scores⟩ := e
    by_cases hlt : effectivePercentage scores < θ <;>
      simp [recsLoop, hlt, List.filter_cons, ih]

theorem mem_recsLoop {tr : List (String × Resource)} {θ : ℚ}
    {ts : List (String × TopicScoreIn)} {r : Recommendation}
    (hr : r ∈ recsLoop tr θ ts) :
    ∃ e, e ∈ ts ∧ effectivePercentage e.2 < θ
      ∧ r = mkRec tr e.1 (effectivePercentage e.2) := by
  rw [recsLoop_eq_filter_map] at hr
  obtain ⟨e, he, rfl⟩ := List.mem_map.mp hr
  obtain ⟨hts, hp⟩ := List.mem_filter.mp he
  exact ⟨e, hts, by simpa using hp, rfl⟩

/-! ### Claim theorems about the recommendation engine -/

/-- Claim C3: over well-formed topic scores (percentage present and numeric),
the engine emits exactly one recommendation per topic strictly below the
threshold — the emitted topics are a permutation of the below-threshold
topics — and none for topics at or above it; when every topic is at or above
the threshold the result is empty. -/
theorem recommendations_cover_below_threshold (course_id : String)
    (ts : List (String × TopicScore)) (threshold : ℚ) :
    ((generate_recommendations course_id (wellFormedInput ts) threshold).map
        Recommendation.topic).Perm
      ((ts.filter fun e => decide (e.2.percentage < threshold)).map Prod.fst)
    ∧ ((∀ e ∈ ts, threshold ≤ e.2.percentage) →
        generate_recommendations course_id (wellFormedInput ts) threshold = []) := by
  constructor
  · have h1 : ((generate_recommendations course_id (wellFormedInput ts) threshold).map
        Recommendation.topic).Perm
          ((recsUnsorted course_id (wellFormedInput ts) threshold).map
            Recommendation.topic) :=
      (List.perm_insertionSort recLEP _).map Recommendation.topic
    have h2 : (recsUnsorted course_id (wellFormedInput ts) threshold).map
          Recommendation.topic
        = (ts.filter fun e => decide (e.2.percentage < threshold)).map Prod.fst := by
      rw [recsUnsorted, recsLoop_eq_filter_map, wellFormedInput, List.filter_map,
        List.map_map, List.map_map]
      rfl
    exact h2 ▸ h1
  · intro hall
    rw [generate_recommendations, recsUnsorted, recsLoop_eq_filter_map]
    have hnil : (wellFormedInput ts).filter
        (fun e => decide (effectivePercentage e.2 < threshold)) = [] := by
      rw [List.filter_eq_nil_iff]
      intro e he
      rw [wellFormedInput, List.mem_map] at he
      obtain ⟨e', he', rfl⟩ := he
      simpa [TopicScore.toInput, effectivePercentage, not_lt] using hall e' he'
    rw [hnil]
    rfl

/-- Claim C3 witness: a course whose every topic is at or above the threshold
receives no recommendations. -/
theorem recommendations_cover_below_threshold_witness :
    (∀ e ∈ [("fundamentals", (⟨1, 1, 100⟩ : TopicScore)),
            ("development", (⟨2, 2, 100⟩ : TopicScore))],
        (70 : ℚ) ≤ e.2.percentage)
    ∧ generate_recommendations "xm-cloud-101"
        (wellFormedInput [("fundamentals", ⟨1, 1, 100⟩), ("development", ⟨2, 2, 100⟩)])
        70 = [] :=
  ⟨by decide,
    (recommendations_cover_below_threshold "xm-cloud-101"
      [("fundamentals", ⟨1, 1, 100⟩), ("development", ⟨2, 2, 100⟩)] 70).2 (by decide)⟩

/-- Claim C4: every emitted recommendation's priority is determined solely by
its score: "high" exactly below 40, "medium" exactly on [40, 60), "low"
exactly at 60 or above; and every emitted score is below the threshold. -/
theorem recommendation_priority_tiers (course_id : String)
    (topic_scores : List (String × TopicScoreIn)) (threshold : ℚ)
    (r : Recommendation)
    (hr : r ∈ generate_recommendations course_id topic_scores threshold) :
    (r.priority = "high" ↔ r.score < 40)
    ∧ (r.priority = "medium" ↔ 40 ≤ r.score ∧ r.score < 60)
    ∧ (r.priority = "low" ↔ 60 ≤ r.score)
    ∧ r.score < threshold := by
  rw [generate_recommendations, List.mem_insertionSort, recsUnsorted] at hr
  obtain ⟨e, -, hlt, rfl⟩ := mem_recsLoop hr
  by_cases h40 : effectivePercentage e.2 < 40
  · have h60 : effectivePercentage e.2 < 60 := h40.trans (by norm_num)
    simp [mkRec, h40, hlt, not_le.mpr h40, not_le.mpr h60]
  · by_cases h60 : effectivePercentage e.2 < 60
    · simp [mkRec, h40, h60, hlt, not_lt.mp h40, not_le.mpr h60]
    · simp [mkRec, h40, h60, hlt, not_lt.mp h60]

/-- Claim C4 witness: a topic at 30 percent in an unknown course yields a
recommendation whose priority is "high". -/
theorem recommendation_priority_tiers_witness :
    ({ topic := "t", score := 30, priority := "high",
       module := "Review T section", artifact := "summary",
       tip := "Focus on t concepts",
       resources := ["Review t materials", "Practice with examples",
                     "Take notes on key concepts"] } : Recommendation)
      ∈ generate_recommendations "c" [("t", ⟨PercentField.num 30, 0, 0⟩)] 70
    ∧ (({ topic := "t", score := 30, priority := "high",
          module := "Review T section", artifact := "summary",
          tip := "Focus on t concepts",
          resources := ["Review t materials", "Practice with examples",
                        "Take notes on key concepts"] } : Recommendation).priority = "high"
        ↔ (30 : ℚ) < 40) :=
  ⟨by decide,
    ((recommendation_priority_tiers "c" [("t", ⟨PercentField.num 30, 0, 0⟩)] 70 _
      (by decide)).1)⟩

/-- Claim C8: resource lookup is total: for any topic below the threshold
whose (course, topic) pair is absent from the static resource table, a
recommendation is still produced and carries the `_default_resource`
fallback synthesized from the topic name. -/
theorem recommendation_default_resource_fallback (course_id topic : String)
    (topic_scores : List (String × TopicScoreIn)) (threshold : ℚ)
    (scores : TopicScoreIn)
    (hmem : (topic, scores) ∈ topic_scores)
    (hlt : effectivePercentage scores < threshold)
    (habsent : ((course_resources.lookup course_id).getD []).lookup topic = none) :
    ∃ r ∈ generate_recommendations course_id topic_scores threshold,
      r.topic = topic ∧ r.score = effectivePercentage scores
      ∧ r.module = (default_resource topic).module
      ∧ r.artifact = (default_resource topic).artifact
      ∧ r.tip = (default_resource topic).tip
      ∧ r.resources = (default_resource topic).resources := by
  refine ⟨mkRec ((course_resources.lookup course_id).getD []) topic
    (effectivePercentage scores), ?_, ?_⟩
  · rw [generate_recommendations, List.mem_insertionSort, recsUnsorted,
      recsLoop_eq_filter_map]
    exact List.mem_map_of_mem _ (List.mem_filter.mpr ⟨hmem, by simpa using hlt⟩)
  · simp [mkRec, habsent]

/-- Claim C8 witness: topic `custom_topic` is absent from the
`xm-cloud-101` resource table; at 50 percent it still gets a recommendation,
built from the synthesized default resource. -/
theorem recommendation_default_resource_fallback_witness :
    ("custom_topic", (⟨PercentField.num 50, 0, 0⟩ : TopicScoreIn))
        ∈ [("custom_topic", (⟨PercentField.num 50, 0, 0⟩ : TopicScoreIn))]
    ∧ ∃ r ∈ generate_recommendations "xm-cloud-101"
          [("custom_topic", ⟨PercentField.num 50, 0, 0⟩)] 70,
        r.topic = "custom_topic"
        ∧ r.score = effectivePercentage ⟨PercentField.num 50, 0, 0⟩
        ∧ r.module = (default_resource "custom_topic").module
        ∧ r.artifact = (default_resource "custom_topic").artifact
        ∧ r.tip = (default_resource "custom_topic").tip
        ∧ r.resources = (default_resource "custom_topic").resources :=
  ⟨by decide,
    recommendation_default_resource_fallback "xm-cloud-101" "custom_topic"
      [("custom_topic", ⟨PercentField.num 50, 0, 0⟩)] 70
      ⟨PercentField.num 50, 0, 0⟩ (by decide) (by norm_num [effectivePercentage])
      (by decide)⟩

theorem recLEP_of_key_eq {a b : Recommendation} (h : recKey a = recKey b) :
    recLEP a b := by
  simp [recLEP, recLE, h]

theorem filter_orderedInsert_key_eq (k : Nat × ℚ) (a : Recommendation)
    (ha : recKey a = k) :
    ∀ l : List Recommendation,
      (List.orderedInsert recLEP a l).filter (fun r => decide (recKey r = k))
        = a :: l.filter (fun r => decide (recKey r = k)) := by
  intro l
  induction l with
  | nil => simp [ha]
  | cons b l ih =>
    by_cases hr : recLEP a b
    · simp [List.orderedInsert, hr, List.filter_cons, ha]
    · have hb : ¬ recKey b = k := by
        intro hbk
        exact hr (recLEP_of_key_eq (ha.trans hbk.symm))
      simp [List.orderedInsert, hr, List.filter_cons, hb, ih]

theorem filter_orderedInsert_key_ne (k : Nat × ℚ) (a : Recommendation)
    (ha : ¬ recKey a = k) :
    ∀ l : List Recommendation,
      (List.orderedInsert recLEP a l).filter (fun r => decide (recKey r = k))
        = l.filter (fun r => decide (recKey r = k)) := by
  intro l
  induction l with
  | nil => simp [ha]
  | cons b l ih =>
    by_cases hr : recLEP a b
    · simp [List.orderedInsert, hr, List.filter_cons, ha]
    · simp [List.orderedInsert, hr, List.filter_cons, ih]

theorem filter_insertionSort_key (k : Nat × ℚ) :
    ∀ l : List Recommendation,
      (List.insertionSort recLEP l).filter (fun r => decide (recKey r = k))
        = l.filter (fun r => decide (recKey r = k)) := by
  intro l
  induction l with
  | nil => rfl
  | cons a l ih =>
    by_cases ha : recKey a = k
    · rw [List.insertionSort, filter_orderedInsert_key_eq k a ha, ih,
        List.filter_cons]
      simp [ha]
    · rw [List.insertionSort, filter_orderedInsert_key_ne k a ha, ih,
        List.filter_cons]
      simp [ha]

/-- Claim C5: the returned recommendation list is sorted by the lexicographic
key (priority rank with high=0, medium=1, low=2; then percentage ascending),
and the sort is stable: for every key value, the returned elements carrying
that key are exactly the pre-sort elements carrying it, in their
topic-insertion order. Concretely, topics at 85, 30, 55 and 65 percent with
threshold 70 yield exactly three recommendations, ordered 30 (high),
55 (medium), 65 (low). -/
theorem recommendations_sorted_and_stable :
    (∀ (course_id : String) (topic_scores : List (String × TopicScoreIn))
        (threshold : ℚ),
      (generate_recommendations course_id topic_scores threshold).Pairwise recLEP
      ∧ ∀ k : Nat × ℚ,
          (generate_recommendations course_id topic_scores threshold).filter
              (fun r => decide (recKey r = k))
            = (recsUnsorted course_id topic_scores threshold).filter
              (fun r => decide (recKey r = k)))
    ∧ (generate_recommendations "xm-cloud-101"
        [("fundamentals", ⟨PercentField.num 85, 0, 0⟩),
         ("development", ⟨PercentField.num 30, 0, 0⟩),
         ("architecture", ⟨PercentField.num 55, 0, 0⟩),
         ("deployment", ⟨PercentField.num 65, 0, 0⟩)] 70).map
          (fun r => (r.topic, r.score, r.priority))
      = [("development", 30, "high"), ("architecture", 55, "medium"),
         ("deployment", 65, "low")] := by
  refine ⟨fun course_id topic_scores threshold => ⟨?_, ?_⟩, ?_⟩
  · exact List.sorted_insertionSort recLEP _
  · intro k
    exact filter_insertionSort_key k _
  · decide

end CourseCompanion
